import Mathlib

/-!
Shallow embedding of the `calc` emulator's SHA256 accelerator stub
(`src/core/src/peripherals/sha256.rs`), ST7789V panel stub
(`src/core/src/peripherals/panel.rs`) and the opcode formatter of the
trace driver (`src/core/examples/clean_trace.rs`).

Machine integers (u8, u32) are modelled as `Nat`; every value stored in
a register is already < 2^32 (resp. < 2^8) by construction, and the one
place where Rust wrapping matters (`param_idx += 1` on a `u8`) is made
explicit with `% 256`, with a separate checked variant mirroring the
debug-build overflow panic.
-/

namespace Calc

/-- SHA256 accelerator controller: 16-word input block, 8-word hash
state, and a `last` index (never used by read/write). -/
structure Sha256Controller where
  block : List Nat
  state : List Nat
  last : Nat
deriving DecidableEq, Repr

/-- The standard SHA-256 IV, `Sha256Controller::INITIAL_STATE`. -/
def Sha256Controller.INITIAL_STATE : List Nat :=
  [0x6a09e667, 0xbb67ae85, 0x3c6ef372, 0xa54ff53a,
   0x510e527f, 0x9b05688c, 0x1f83d9ab, 0x5be0cd19]

/-- `Sha256Controller::new`. -/
def Sha256Controller.new : Sha256Controller :=
  { block := List.replicate 16 0
    state := Sha256Controller.INITIAL_STATE
    last := 0 }

/-- `Sha256Controller::read`: byte read at an offset within the 0x2xxx
window.  `index = addr >> 2`, `bit_offset = (addr & 3) * 8`. -/
def Sha256Controller.read (s : Sha256Controller) (addr : Nat) : Nat :=
  let index := addr / 4
  let bit_offset := (addr % 4) * 8
  if index = 0x0C / 4 then
    ((s.state.getD 7 0) >>> bit_offset) &&& 0xFF
  else if 0x10 / 4 ≤ index ∧ index < 0x50 / 4 then
    let block_idx := index - 0x10 / 4
    if block_idx < 16 then ((s.block.getD block_idx 0) >>> bit_offset) &&& 0xFF
    else 0
  else if 0x60 / 4 ≤ index ∧ index < 0x80 / 4 then
    let state_idx := index - 0x60 / 4
    if state_idx < 8 then ((s.state.getD state_idx 0) >>> bit_offset) &&& 0xFF
    else 0
  else 0

/-- `Sha256Controller::write`: control register at 0x00 (bit 4 clears
the state, low bits `& 0x0E == 0x0A` reload the IV), block region at
0x10..0x4F, everything else ignored (state registers are read-only). -/
def Sha256Controller.write (s : Sha256Controller) (addr value : Nat) :
    Sha256Controller :=
  let index := addr / 4
  let bit_offset := (addr % 4) * 8
  if addr = 0 then
    if value &&& 0x10 ≠ 0 then
      { s with state := List.replicate 8 0 }
    else if value &&& 0x0E = 0x0A then
      { s with state := Sha256Controller.INITIAL_STATE }
    else s
  else if 0x10 / 4 ≤ index ∧ index < 0x50 / 4 then
    let block_idx := index - 0x10 / 4
    if block_idx < 16 then
      let mask := 0xFFFFFFFF ^^^ (0xFF <<< bit_offset)
      { s with block := (s.block.set block_idx
          (((s.block.getD block_idx 0) &&& mask) ||| (value <<< bit_offset))) }
    else s
  else s

/-- ST7789V command bytes (module `cmd` in panel.rs). -/
def cmd.NOP : Nat := 0x00
def cmd.SWRESET : Nat := 0x01
def cmd.SLPIN : Nat := 0x10
def cmd.SLPOUT : Nat := 0x11
def cmd.INVOFF : Nat := 0x20
def cmd.INVON : Nat := 0x21
def cmd.DISPOFF : Nat := 0x28
def cmd.DISPON : Nat := 0x29
def cmd.CASET : Nat := 0x2A
def cmd.RASET : Nat := 0x2B
def cmd.RAMWR : Nat := 0x2C
def cmd.RAMWRC : Nat := 0x3C
def cmd.MADCTL : Nat := 0x36
def cmd.COLMOD : Nat := 0x3A

/-- Panel stub state (`PanelStub`). -/
structure PanelStub where
  current_cmd : Nat
  param_idx : Nat
  param_count : Nat
  sleeping : Bool
  display_on : Bool
  inverted : Bool
  madctl : Nat
  colmod : Nat
  caset : List Nat
  raset : List Nat
deriving DecidableEq, Repr

/-- `PanelStub::new`. -/
def PanelStub.new : PanelStub :=
  { current_cmd := 0
    param_idx := 0
    param_count := 0
    sleeping := true
    display_on := false
    inverted := false
    madctl := 0
    colmod := 0
    caset := List.replicate 4 0
    raset := List.replicate 4 0 }

/-- `PanelStub::write_cmd`: record the opcode, reset the parameter
index, set the parameter count from the command table, and on SWRESET
re-initialize the whole stub. -/
def PanelStub.write_cmd (p : PanelStub) (c : Nat) : PanelStub :=
  let p0 := { p with current_cmd := c, param_idx := 0 }
  let p1 :=
    if c = cmd.NOP ∨ c = cmd.SWRESET then { p0 with param_count := 0 }
    else if c = cmd.SLPIN then { p0 with sleeping := true, param_count := 0 }
    else if c = cmd.SLPOUT then { p0 with sleeping := false, param_count := 0 }
    else if c = cmd.INVOFF then { p0 with inverted := false, param_count := 0 }
    else if c = cmd.INVON then { p0 with inverted := true, param_count := 0 }
    else if c = cmd.DISPOFF then { p0 with display_on := false, param_count := 0 }
    else if c = cmd.DISPON then { p0 with display_on := true, param_count := 0 }
    else if c = cmd.CASET then { p0 with param_count := 4 }
    else if c = cmd.RASET then { p0 with param_count := 4 }
    else if c = cmd.MADCTL then { p0 with param_count := 1 }
    else if c = cmd.COLMOD then { p0 with param_count := 1 }
    else if c = cmd.RAMWR ∨ c = cmd.RAMWRC then { p0 with param_count := 0 }
    else { p0 with param_count := 0xFF }
  if c = cmd.SWRESET then PanelStub.new else p1

/-- `PanelStub::write_param`, release semantics: the `u8` increment of
`param_idx` wraps modulo 256. -/
def PanelStub.write_param (p : PanelStub) (param : Nat) : PanelStub :=
  if p.param_count = 0 then p
  else
    let p1 :=
      if p.current_cmd = cmd.CASET then
        if p.param_idx < p.caset.length then
          { p with caset := p.caset.set p.param_idx param }
        else p
      else if p.current_cmd = cmd.RASET then
        if p.param_idx < p.raset.length then
          { p with raset := p.raset.set p.param_idx param }
        else p
      else if p.current_cmd = cmd.MADCTL then { p with madctl := param }
      else if p.current_cmd = cmd.COLMOD then { p with colmod := param }
      else p
    let p2 := { p1 with param_idx := (p1.param_idx + 1) % 256 }
    if p2.param_count ≤ p2.param_idx ∧ p2.param_count ≠ 0xFF then
      { p2 with param_count := 0 }
    else p2

/-- `PanelStub::transfer`: bit 8 of the frame selects data (1) vs
command (0); the return value is always the bit count 9. -/
def PanelStub.transfer (p : PanelStub) (tx_data : Nat) : PanelStub × Nat :=
  let byte := tx_data &&& 0xFF
  if tx_data &&& 0x100 ≠ 0 then (p.write_param byte, 9)
  else (p.write_cmd byte, 9)

/-- Run a list of SPI frames through the panel, left to right. -/
def PanelStub.runFrames (p : PanelStub) (frames : List Nat) : PanelStub :=
  frames.foldl (fun q f => (q.transfer f).1) p

/-- `PanelStub::write_param`, debug semantics: `param_idx += 1` on a
`u8` panics when `param_idx = 255`; `none` models that panic. -/
def PanelStub.write_param_checked (p : PanelStub) (param : Nat) :
    Option PanelStub :=
  if p.param_count = 0 then some p
  else
    let p1 :=
      if p.current_cmd = cmd.CASET then
        if p.param_idx < p.caset.length then
          { p with caset := p.caset.set p.param_idx param }
        else p
      else if p.current_cmd = cmd.RASET then
        if p.param_idx < p.raset.length then
          { p with raset := p.raset.set p.param_idx param }
        else p
      else if p.current_cmd = cmd.MADCTL then { p with madctl := param }
      else if p.current_cmd = cmd.COLMOD then { p with colmod := param }
      else p
    if p1.param_idx = 255 then none
    else
      let p2 := { p1 with param_idx := p1.param_idx + 1 }
      some (if p2.param_count ≤ p2.param_idx ∧ p2.param_count ≠ 0xFF then
              { p2 with param_count := 0 }
            else p2)

/-- `PanelStub::transfer` under debug (checked-overflow) semantics. -/
def PanelStub.transfer_checked (p : PanelStub) (tx_data : Nat) :
    Option (PanelStub × Nat) :=
  let byte := tx_data &&& 0xFF
  if tx_data &&& 0x100 ≠ 0 then
    match p.write_param_checked byte with
    | none => none
    | some q => some (q, 9)
  else some (p.write_cmd byte, 9)

/-- Run a list of SPI frames under checked semantics; `none` means some
frame panicked. -/
def PanelStub.runFramesChecked (p : PanelStub) :
    List Nat → Option PanelStub
  | [] => some p
  | f :: rest =>
    match p.transfer_checked f with
    | none => none
    | some (q, _) => q.runFramesChecked rest

/-- One uppercase hex digit, as produced by Rust `{:02X}` formatting:
0-9 then A-F. -/
def hexDigit (n : Nat) : Char :=
  if n < 10 then Char.ofNat (48 + n) else Char.ofNat (55 + n)

/-- Rust `format!("{:02X}", b)` for a byte value: exactly two uppercase
hex digits. -/
def byteHex (b : Nat) : String :=
  String.mk [hexDigit (b / 16 % 16), hexDigit (b % 16)]

/-- The trace driver's opcode formatting (clean_trace.rs lines 77-87):
nested conditionals on the first two opcode bytes. -/
def op_str (op1 op2 op3 op4 : Nat) : String :=
  if op1 = 0xDD ∨ op1 = 0xFD then
    if op2 = 0xCB then
      byteHex op1 ++ " " ++ byteHex op2 ++ " " ++ byteHex op3 ++ " " ++ byteHex op4
    else
      byteHex op1 ++ " " ++ byteHex op2
  else if op1 = 0xED ∨ op1 = 0xCB then
    byteHex op1 ++ " " ++ byteHex op2
  else
    byteHex op1

/-- Modelled from the spec: the flat three-case description of opcode
formatting — four hex bytes when byte0 ∈ {DD, FD} and byte1 = CB, two
when byte0 ∈ {DD, FD, ED, CB}, one otherwise.  Stated separately from
`op_str` so the code's nested conditionals can be compared with it. -/
def op_str_spec (op1 op2 op3 op4 : Nat) : String :=
  if (op1 = 0xDD ∨ op1 = 0xFD) ∧ op2 = 0xCB then
    byteHex op1 ++ " " ++ byteHex op2 ++ " " ++ byteHex op3 ++ " " ++ byteHex op4
  else if op1 = 0xDD ∨ op1 = 0xFD ∨ op1 = 0xED ∨ op1 = 0xCB then
    byteHex op1 ++ " " ++ byteHex op2
  else
    byteHex op1

/-! ## Theorems -/

set_option maxRecDepth 4096 in
/-- A byte's low nibble is 0x0A or 0x0B exactly when masking it with
0x0E gives 0x0A (the test the control-register write performs). -/
lemma and_0F_iff_and_0E : ∀ v : Nat, v < 256 →
    ((v &&& 0x0F = 0x0A ∨ v &&& 0x0F = 0x0B) ↔ v &&& 0x0E = 0x0A) := by
  decide

/-- C1: a write of byte v to control offset 0x00 zeroes the 8-word
state when bit 4 of v is set; otherwise, when the low nibble of v is
0x0A or 0x0B it reloads the standard SHA-256 IV; for every other v the
write leaves the controller completely unchanged. -/
theorem sha256_ctrl_write_cases (s : Sha256Controller) (v : Nat) (hv : v < 256) :
    (v &&& 0x10 ≠ 0 → (s.write 0 v).state = List.replicate 8 0) ∧
    (v &&& 0x10 = 0 → (v &&& 0x0F = 0x0A ∨ v &&& 0x0F = 0x0B) →
      (s.write 0 v).state = Sha256Controller.INITIAL_STATE) ∧
    (v &&& 0x10 = 0 → ¬(v &&& 0x0F = 0x0A ∨ v &&& 0x0F = 0x0B) →
      s.write 0 v = s) := by
  have hiff := and_0F_iff_and_0E v hv
  refine ⟨fun h => ?_, fun h0 h => ?_, fun h0 h => ?_⟩
  · simp [Sha256Controller.write, h]
  · have h2 : v &&& 0x0E = 0x0A := hiff.mp h
    simp [Sha256Controller.write, h0, h2]
  · have h3 : v &&& 0x0E ≠ 0x0A := fun hc => h (hiff.mpr hc)
    simp [Sha256Controller.write, h0, h3]

/-- Witness for C1: all three branches at concrete inputs. -/
theorem sha256_ctrl_write_cases_witness :
    (Sha256Controller.new.write 0 0x10).state = List.replicate 8 0 ∧
    ((Sha256Controller.new.write 0 0x10).write 0 0x0A).state =
      Sha256Controller.INITIAL_STATE ∧
    Sha256Controller.new.write 0 0x03 = Sha256Controller.new :=
  ⟨(sha256_ctrl_write_cases Sha256Controller.new 0x10 (by decide)).1 (by decide),
   (sha256_ctrl_write_cases (Sha256Controller.new.write 0 0x10) 0x0A
      (by decide)).2.1 (by decide) (by decide),
   (sha256_ctrl_write_cases Sha256Controller.new 0x03 (by decide)).2.2
      (by decide) (by decide)⟩

/-- C2 counterexample: a RAMWR (0x2C) command frame sets `param_count`
to 0, not 0xFF as claimed; likewise RAMWRC (0x3C). -/
theorem ramwr_param_count_cex :
    (PanelStub.new.transfer 0x2C).1.param_count = 0 ∧
    (PanelStub.new.transfer 0x2C).1.param_count ≠ 0xFF ∧
    (PanelStub.new.transfer 0x3C).1.param_count ≠ 0xFF := by
  decide

/-- C2 amended: a RAMWR or RAMWRC command frame sets `param_count` to
0, and every following data frame is absorbed without changing the
panel at all. -/
theorem ramwr_absorbs_with_param_count_zero (p : PanelStub) (b : Nat)
    (hb : b = cmd.RAMWR ∨ b = cmd.RAMWRC) :
    (p.write_cmd b).param_count = 0 ∧
    ∀ d, (p.write_cmd b).write_param d = p.write_cmd b := by
  rcases hb with h | h <;> subst h <;> exact ⟨rfl, fun _ => rfl⟩

/-- Witness for C2's amended claim: RAMWR on a fresh panel. -/
theorem ramwr_absorbs_with_param_count_zero_witness :
    (PanelStub.new.write_cmd 0x2C).param_count = 0 ∧
    (PanelStub.new.write_cmd 0x2C).write_param 0x55 =
      PanelStub.new.write_cmd 0x2C :=
  ⟨(ramwr_absorbs_with_param_count_zero PanelStub.new 0x2C (Or.inl rfl)).1,
   (ramwr_absorbs_with_param_count_zero PanelStub.new 0x2C (Or.inl rfl)).2 0x55⟩

/-- C3 counterexample: after zeroing (write 0x10) and reloading the IV
(write 0x0A) through control offset 0x00, reading offset 0x6C returns
0x3a (byte 0 of state[3] = 0xA54FF53A), not 0x19 as claimed. -/
theorem sha256_iv_reload_read_6C_cex :
    ((Sha256Controller.new.write 0 0x10).write 0 0x0A).read 0x6C = 0x3a ∧
    ((Sha256Controller.new.write 0 0x10).write 0 0x0A).read 0x6C ≠ 0x19 := by
  decide

/-- C3 amended: after writing 0x10 then 0x0A to control offset 0x00 of
a fresh controller, state[7] = 0x5BE0CD19 is read little-endian at
offsets 0x7C..0x7F as 0x19, 0xcd, 0xe0, 0x5b; offsets 0x6C..0x6F hold
state[3] = 0xA54FF53A, read as 0x3a, 0xf5, 0x4f, 0xa5. -/
theorem sha256_iv_reload_reads :
    ((Sha256Controller.new.write 0 0x10).write 0 0x0A).read 0x7C = 0x19 ∧
    ((Sha256Controller.new.write 0 0x10).write 0 0x0A).read 0x7D = 0xcd ∧
    ((Sha256Controller.new.write 0 0x10).write 0 0x0A).read 0x7E = 0xe0 ∧
    ((Sha256Controller.new.write 0 0x10).write 0 0x0A).read 0x7F = 0x5b ∧
    ((Sha256Controller.new.write 0 0x10).write 0 0x0A).read 0x6C = 0x3a ∧
    ((Sha256Controller.new.write 0 0x10).write 0 0x0A).read 0x6D = 0xf5 ∧
    ((Sha256Controller.new.write 0 0x10).write 0 0x0A).read 0x6E = 0x4f ∧
    ((Sha256Controller.new.write 0 0x10).write 0 0x0A).read 0x6F = 0xa5 := by
  decide

/-- C4: a write to any address in the state region 0x60..0x7F leaves
the controller unchanged — state, block, and every subsequent read. -/
theorem sha256_state_region_write_noop (s : Sha256Controller)
    (addr v : Nat) (h1 : 0x60 ≤ addr) (h2 : addr ≤ 0x7F) :
    s.write addr v = s ∧ ∀ a, (s.write addr v).read a = s.read a := by
  have hne : addr ≠ 0 := by omega
  have hub : ¬(0x10 / 4 ≤ addr / 4 ∧ addr / 4 < 0x50 / 4) := by omega
  have hw : s.write addr v = s := by
    simp only [Sha256Controller.write, if_neg hne, if_neg hub]
  exact ⟨hw, fun a => by rw [hw]⟩

/-- Witness for C4: write 0xAB to 0x60 on a fresh controller. -/
theorem sha256_state_region_write_noop_witness :
    Sha256Controller.new.write 0x60 0xAB = Sha256Controller.new ∧
    (Sha256Controller.new.write 0x60 0xAB).read 0x7C =
      Sha256Controller.new.read 0x7C :=
  ⟨(sha256_state_region_write_noop Sha256Controller.new 0x60 0xAB
      (by decide) (by decide)).1,
   (sha256_state_region_write_noop Sha256Controller.new 0x60 0xAB
      (by decide) (by decide)).2 0x7C⟩

/-- C5: SWRESET re-initializes the panel to `new()`, so transferring
the SWRESET command frame twice ends in exactly the state one transfer
produces. -/
theorem swreset_idempotent (p : PanelStub) :
    (p.transfer 0x01).1 = PanelStub.new ∧
    ((p.transfer 0x01).1.transfer 0x01).1 = (p.transfer 0x01).1 :=
  ⟨rfl, rfl⟩

/-- C6: every transfer, command or data, any frame value, returns the
bit count 9. -/
theorem transfer_returns_nine (p : PanelStub) (tx_data : Nat) :
    (p.transfer tx_data).2 = 9 := by
  unfold PanelStub.transfer
  split <;> rfl

/-- C7 counterexample: the literal frame sequence 0x2A, 0x100,
0x101|0 = 0x101, 0x101|0 = 0x101, 0x101|1 = 0x101, 0x101|0x3F = 0x13F
carries data bytes 0x00, 0x01, 0x01, 0x01, 0x3F, so the column window
ends as [0x00, 0x01, 0x01, 0x01], not [0x00, 0x00, 0x01, 0x3F]. -/
theorem caset_literal_frames_cex :
    (PanelStub.runFrames PanelStub.new
      [0x2A, 0x100, 0x101, 0x101, 0x101, 0x13F]).caset =
      [0x00, 0x01, 0x01, 0x01] ∧
    (PanelStub.runFrames PanelStub.new
      [0x2A, 0x100, 0x101, 0x101, 0x101, 0x13F]).caset ≠
      [0x00, 0x00, 0x01, 0x3F] := by
  decide

/-- C7 amended: from a fresh panel, the CASET command 0x2A followed by
data frames 0x100|0x00, 0x100|0x00, 0x100|0x01, 0x100|0x3F sets the
column window to [0x00, 0x00, 0x01, 0x3F]; a further data frame beyond
the 4 expected parameters is swallowed without effect. -/
theorem caset_sequence :
    (PanelStub.runFrames PanelStub.new
      [0x2A, 0x100, 0x100, 0x101, 0x13F]).caset =
      [0x00, 0x00, 0x01, 0x3F] ∧
    ((PanelStub.runFrames PanelStub.new
      [0x2A, 0x100, 0x100, 0x101, 0x13F]).transfer 0x1AA).1 =
      PanelStub.runFrames PanelStub.new [0x2A, 0x100, 0x100, 0x101, 0x13F] := by
  decide

/-- C8: after construction, the panel is sleeping with the display off,
and the SHA256 controller holds the standard IV with an all-zero input
block. -/
theorem new_reset_values :
    PanelStub.new.sleeping = true ∧
    PanelStub.new.display_on = false ∧
    Sha256Controller.new.state =
      [0x6a09e667, 0xbb67ae85, 0x3c6ef372, 0xa54ff53a,
       0x510e527f, 0x9b05688c, 0x1f83d9ab, 0x5be0cd19] ∧
    Sha256Controller.new.block = List.replicate 16 0 := by
  decide

/-- C9: the nested opcode formatting of the trace driver agrees with
the spec's flat three-case description for all byte values, and the
three quoted examples format as stated. -/
theorem op_format_spec :
    (∀ op1 op2 op3 op4, op_str op1 op2 op3 op4 = op_str_spec op1 op2 op3 op4) ∧
    op_str 0xDD 0xCB 0x01 0x46 = "DD CB 01 46" ∧
    (∀ op3 op4, op_str 0xED 0x52 op3 op4 = "ED 52") ∧
    (∀ op2 op3 op4, op_str 0x21 op2 op3 op4 = "21") := by
  refine ⟨fun op1 op2 op3 op4 => ?_, by decide, fun op3 op4 => rfl,
    fun op2 op3 op4 => rfl⟩
  unfold op_str op_str_spec
  split_ifs <;> first | rfl | tauto

set_option maxRecDepth 16384 in
/-- C10: under checked (debug) arithmetic, an unknown command frame
(0x02, `param_count` = 0xFF) followed by 256 data frames panics — the
256th data frame executes `param_idx += 1` with `param_idx` = 255,
overflowing the u8 — while 255 data frames still succeed. -/
theorem param_idx_overflow_panic :
    PanelStub.runFramesChecked PanelStub.new
      (0x02 :: List.replicate 256 0x100) = none ∧
    PanelStub.runFramesChecked PanelStub.new
      (0x02 :: List.replicate 255 0x100) ≠ none ∧
    (PanelStub.runFrames PanelStub.new
      (0x02 :: List.replicate 255 0x100)).param_idx = 255 := by
  decide

end Calc
